import Mathlib

/-!
Verification of the Snow-Agent Alert Decision & Delivery Engine.

Shallow embedding of `src/backend/avisos.py` (rule evaluation and alert
batch generation) and `src/backend/isuite.py` (OAuth2 token cache and
delivery to SAP Integration Suite).

Modelling conventions:
* Python floats are modelled as rationals (`ℚ`).
* A snapshot field that may be absent is an `Option`; a field that may hold
  a non-numeric (malformed) value is a `JVal` (`num` or `str`).
* Each rule evaluator in the source wraps its body in `try/except` and
  returns `False` on any exception.  A comparison between a string and a
  number raises `TypeError` in Python, so the overall value of the
  conjunction is `False` whenever any fetched field used by the rule is a
  string: either an earlier conjunct already evaluated to `False`, or the
  first comparison touching the string raised and the handler returned
  `False`.  The embedding therefore pattern-matches all fetched values and
  returns `false` unless they are all numeric.
* The file read of `station_data.json` (`get_latest_marwis_data`) is I/O:
  its result (`None` or a measurement set) is passed as the `marwis_data`
  parameter.  `datetime.now()` is passed as an opaque `now : String`.
* HTTP traffic is modelled by response oracles (`Nat → TokenOutcome`,
  `Nat → HttpOutcome`) consumed in order by the delivery code.
-/

/-- A JSON-ish scalar found in the weather-condition dict: a number or a
string (the malformed / `N/A` case). -/
inductive JVal
  | num (q : ℚ)
  | str (s : String)
deriving DecidableEq, Repr

/-- The nested `pronostico` dict (`prob_lluvia`, `prob_nieve`), each key
possibly absent. -/
structure Pronostico where
  prob_lluvia : Option JVal := none
  prob_nieve : Option JVal := none
deriving DecidableEq, Repr

/-- The `condiciones_clima` dict consumed by the evaluators
(`avisos.py`): every key may be absent (`none`). -/
structure CondicionesClima where
  temperatura_actual : Option JVal := none
  punto_rocio : Option JVal := none
  temperatura_pista : Option JVal := none
  humedad : Option JVal := none
  viento : Option JVal := none
  pronostico : Option Pronostico := none
deriving DecidableEq, Repr

/-- One MARWIS measurement record (`SensorChannelName`, `Value`). -/
structure Medicion where
  SensorChannelName : String := ""
  Value : String := ""
deriving DecidableEq, Repr

/-- The MARWIS data dict (`measurements` key). -/
structure MarwisData where
  measurements : List Medicion := []
deriving DecidableEq, Repr

/-- `'surface' in name` for a measurement channel name (Python `in` on
strings): the pattern occurs iff splitting on it yields more than one
piece. -/
def contieneSubcadena (s pat : String) : Bool :=
  (s.splitOn pat).length > 1

/-- Wind value used by rule 0 (`avisos.py:175-179`): key absent defaults
to `0`, and a string value (`'N/A'`) is replaced by `0`. -/
def vientoAviso0 (condiciones_clima : CondicionesClima) : ℚ :=
  match condiciones_clima.viento.getD (.num 0) with
  | .str _ => 0
  | .num q => q

/-- `evaluar_condiciones_aviso_0` (`avisos.py:166-191`): ambient
temperature (default 999) strictly below `0` and wind strictly below
`100`.  A string-valued temperature raises in Python and the handler
returns `False`. -/
def evaluar_condiciones_aviso_0 (condiciones_clima : CondicionesClima) : Bool :=
  let temp_amb := condiciones_clima.temperatura_actual.getD (.num 999)
  let viento := vientoAviso0 condiciones_clima
  match temp_amb with
  | .num t => decide (t < 0 ∧ viento < 100)
  | .str _ => false

/-- `evaluar_condiciones_aviso_1` (`avisos.py:193-216`), thresholds from
`AVISOS_CONFIG['AVISO_1']['condiciones']`: `3 < temp ≤ 6`,
`rocio ≥ temp + (-3)`, `pista < 0`, `humedad ≥ 56`, `viento < 36`.
Defaults: temp/rocio/pista/viento 999, humedad 0. -/
def evaluar_condiciones_aviso_1 (condiciones_clima : CondicionesClima) : Bool :=
  let temp_amb := condiciones_clima.temperatura_actual.getD (.num 999)
  let temp_rocio := condiciones_clima.punto_rocio.getD (.num 999)
  let temp_pista := condiciones_clima.temperatura_pista.getD (.num 999)
  let humedad := condiciones_clima.humedad.getD (.num 0)
  let viento := condiciones_clima.viento.getD (.num 999)
  match temp_amb, temp_rocio, temp_pista, humedad, viento with
  | .num t, .num r, .num p, .num h, .num v =>
      decide (3 < t ∧ t ≤ 6 ∧ r ≥ t + (-3) ∧ p < 0 ∧ h ≥ 56 ∧ v < 36)
  | _, _, _, _, _ => false

/-- `evaluar_condiciones_aviso_2` (`avisos.py:218-240`), thresholds from
`AVISOS_CONFIG['AVISO_2']['condiciones']`: `-50 ≤ temp ≤ 3`,
`rocio ≥ temp + (-1)`, `pista < 0`, `humedad ≥ 40`, `viento < 50`. -/
def evaluar_condiciones_aviso_2 (condiciones_clima : CondicionesClima) : Bool :=
  let temp_amb := condiciones_clima.temperatura_actual.getD (.num 999)
  let temp_rocio := condiciones_clima.punto_rocio.getD (.num 999)
  let temp_pista := condiciones_clima.temperatura_pista.getD (.num 999)
  let humedad := condiciones_clima.humedad.getD (.num 0)
  let viento := condiciones_clima.viento.getD (.num 999)
  match temp_amb, temp_rocio, temp_pista, humedad, viento with
  | .num t, .num r, .num p, .num h, .num v =>
      decide (-50 ≤ t ∧ t ≤ 3 ∧ r ≥ t + (-1) ∧ p < 0 ∧ h ≥ 40 ∧ v < 50)
  | _, _, _, _, _ => false

/-- `evaluar_condiciones_aviso_3` (`avisos.py:242-268`), thresholds from
`AVISOS_CONFIG['AVISO_3']['condiciones']`: `temp ≤ 0`,
`rocio ≥ temp + (-1)`, `pista < 0`, `humedad ≥ 63`, `viento < 33`, and no
MARWIS reading (`marwis_data is None or not marwis_data.get('measurements')`). -/
def evaluar_condiciones_aviso_3 (condiciones_clima : CondicionesClima)
    (marwis_data : Option MarwisData) : Bool :=
  let temp_amb := condiciones_clima.temperatura_actual.getD (.num 999)
  let temp_rocio := condiciones_clima.punto_rocio.getD (.num 999)
  let temp_pista := condiciones_clima.temperatura_pista.getD (.num 999)
  let humedad := condiciones_clima.humedad.getD (.num 0)
  let viento := condiciones_clima.viento.getD (.num 999)
  let sin_lectura_marwis :=
    match marwis_data with
    | none => true
    | some m => m.measurements.isEmpty
  match temp_amb, temp_rocio, temp_pista, humedad, viento with
  | .num t, .num r, .num p, .num h, .num v =>
      (decide (t ≤ 0 ∧ r ≥ t + (-1) ∧ p < 0 ∧ h ≥ 63 ∧ v < 33)) && sin_lectura_marwis
  | _, _, _, _, _ => false

/-- `evaluar_condiciones_aviso_4` (`avisos.py:270-304`), thresholds from
`AVISOS_CONFIG['AVISO_4']['condiciones']`: same numeric thresholds as rule
3 plus a wet/damp surface classification from MARWIS: the first
measurement whose lowercased channel name contains `'surface'` is taken,
its `Value` uppercased, and it must be truthy and in `['WET', 'DAMP']`. -/
def evaluar_condiciones_aviso_4 (condiciones_clima : CondicionesClima)
    (marwis_data : Option MarwisData) : Bool :=
  let temp_amb := condiciones_clima.temperatura_actual.getD (.num 999)
  let temp_rocio := condiciones_clima.punto_rocio.getD (.num 999)
  let temp_pista := condiciones_clima.temperatura_pista.getD (.num 999)
  let humedad := condiciones_clima.humedad.getD (.num 0)
  let viento := condiciones_clima.viento.getD (.num 999)
  let surface_condition : Option String :=
    match marwis_data with
    | none => none
    | some m =>
        if m.measurements.isEmpty then none
        else (m.measurements.find? fun me =>
          contieneSubcadena me.SensorChannelName.toLower "surface").map
            fun me => me.Value.toUpper
  let superficie_humeda :=
    match surface_condition with
    | none => false
    | some s => if s = "" then false else (s = "WET" || s = "DAMP")
  match temp_amb, temp_rocio, temp_pista, humedad, viento with
  | .num t, .num r, .num p, .num h, .num v =>
      (decide (t ≤ 0 ∧ r ≥ t + (-1) ∧ p < 0 ∧ h ≥ 63 ∧ v < 33)) && superficie_humeda
  | _, _, _, _, _ => false

/-- `evaluar_condiciones_aviso_5` (`avisos.py:306-333`), thresholds from
`AVISOS_CONFIG['AVISO_5']['condiciones']`: same numeric thresholds as rule
3 plus `prob_lluvia > 50`, where `prob_lluvia` comes from the `pronostico`
sub-dict defaulting to `0`. -/
def evaluar_condiciones_aviso_5 (condiciones_clima : CondicionesClima) : Bool :=
  let temp_amb := condiciones_clima.temperatura_actual.getD (.num 999)
  let temp_rocio := condiciones_clima.punto_rocio.getD (.num 999)
  let temp_pista := condiciones_clima.temperatura_pista.getD (.num 999)
  let humedad := condiciones_clima.humedad.getD (.num 0)
  let viento := condiciones_clima.viento.getD (.num 999)
  let pronostico := condiciones_clima.pronostico.getD {}
  let prob_lluvia := pronostico.prob_lluvia.getD (.num 0)
  match temp_amb, temp_rocio, temp_pista, humedad, viento, prob_lluvia with
  | .num t, .num r, .num p, .num h, .num v, .num pl =>
      decide (t ≤ 0 ∧ r ≥ t + (-1) ∧ p < 0 ∧ h ≥ 63 ∧ v < 33 ∧ pl > 50)
  | _, _, _, _, _, _ => false

/-- `evaluar_condiciones_aviso_6` (`avisos.py:335-362`), thresholds from
`AVISOS_CONFIG['AVISO_6']['condiciones']`: same numeric thresholds as rule
3 plus `prob_nieve > 30`. -/
def evaluar_condiciones_aviso_6 (condiciones_clima : CondicionesClima) : Bool :=
  let temp_amb := condiciones_clima.temperatura_actual.getD (.num 999)
  let temp_rocio := condiciones_clima.punto_rocio.getD (.num 999)
  let temp_pista := condiciones_clima.temperatura_pista.getD (.num 999)
  let humedad := condiciones_clima.humedad.getD (.num 0)
  let viento := condiciones_clima.viento.getD (.num 999)
  let pronostico := condiciones_clima.pronostico.getD {}
  let prob_nieve := pronostico.prob_nieve.getD (.num 0)
  match temp_amb, temp_rocio, temp_pista, humedad, viento, prob_nieve with
  | .num t, .num r, .num p, .num h, .num v, .num pn =>
      decide (t ≤ 0 ∧ r ≥ t + (-1) ∧ p < 0 ∧ h ≥ 63 ∧ v < 33 ∧ pn > 30)
  | _, _, _, _, _, _ => false

/-- The static metadata of one entry of `AVISOS_CONFIG`
(`avisos.py:20-164`), excluding the `condiciones` thresholds (which are
inlined in the evaluators above and reproduced verbatim in the reference
store `catalogoStore` below).  `clase` and `nota` are keys only some rules
have. -/
structure AvisoConfig where
  nombre : String
  clase : Option String := none
  QMART : String
  QMTXT : String
  TPLNR : String
  SWERK : String
  INGRP : String
  GEWRK : String
  PRIOK : String
  QMGRP : String
  QMCOD : String
  nota : Option String := none
deriving DecidableEq, Repr

/-- `AVISOS_CONFIG['AVISO_0']` metadata. -/
def AVISO_0_CONFIG : AvisoConfig :=
  { nombre := "Temperatura Bajo Cero - Riesgo Crítico de Hielo"
    clase := some "CRITICO"
    QMART := "O1"
    QMTXT := "Temperatura Bajo Cero - Riesgo Crítico de Hielo"
    TPLNR := "RGA-INF-PAVIM", SWERK := "RGA", INGRP := "OPE", GEWRK := "ADM_AD"
    PRIOK := "1", QMGRP := "YB-DERR1", QMCOD := "Y116"
    nota := some "Aviso crítico cuando la temperatura está bajo 0°C - Alto riesgo de formación de hielo" }

/-- `AVISOS_CONFIG['AVISO_1']` metadata. -/
def AVISO_1_CONFIG : AvisoConfig :=
  { nombre := "Umbral de Alerta"
    clase := some "ALERTA"
    QMART := "O1", QMTXT := "Umbral de Alerta"
    TPLNR := "RGA-INF-PAVIM", SWERK := "RGA", INGRP := "OPE", GEWRK := "ADM_AD"
    PRIOK := "2", QMGRP := "YB-DERR1", QMCOD := "Y110" }

/-- `AVISOS_CONFIG['AVISO_2']` metadata. -/
def AVISO_2_CONFIG : AvisoConfig :=
  { nombre := "Umbral de Contingencia"
    clase := some "CONTINGENCIA"
    QMART := "O1", QMTXT := "Umbral de Contingencia"
    TPLNR := "RGA-INF-PAVIM", SWERK := "RGA", INGRP := "OPE", GEWRK := "ADM_AD"
    PRIOK := "1", QMGRP := "YB-DERR1", QMCOD := "Y111"
    nota := some "A futuro este aviso se convertirá en Incidencia" }

/-- `AVISOS_CONFIG['AVISO_3']` metadata. -/
def AVISO_3_CONFIG : AvisoConfig :=
  { nombre := "Alerta de cambio de condiciones meteorológicas"
    QMART := "O1", QMTXT := "Alerta de cambio de condiciones meteorológicas"
    TPLNR := "RGA-INF-PAVIM", SWERK := "RGA", INGRP := "OPE", GEWRK := "ADM_AD"
    PRIOK := "2", QMGRP := "YB-DERR1", QMCOD := "Y112"
    nota := some "Genera automáticamente OT de Monitoreo de condiciones de superficies pavimentadas utilizando Marwis" }

/-- `AVISOS_CONFIG['AVISO_4']` metadata. -/
def AVISO_4_CONFIG : AvisoConfig :=
  { nombre := "Alerta de hielo"
    QMART := "O1", QMTXT := "Alerta de hielo"
    TPLNR := "RGA-INF-PAVIM", SWERK := "RGA", INGRP := "OPE", GEWRK := "ADM_AD"
    PRIOK := "1", QMGRP := "YB-DERR1", QMCOD := "Y113" }

/-- `AVISOS_CONFIG['AVISO_5']` metadata. -/
def AVISO_5_CONFIG : AvisoConfig :=
  { nombre := "Alerta de lluvia"
    QMART := "O1", QMTXT := "Alerta de lluvia"
    TPLNR := "RGA-INF-PAVIM", SWERK := "RGA", INGRP := "OPE", GEWRK := "ADM_AD"
    PRIOK := "2", QMGRP := "YB-DERR1", QMCOD := "Y114" }

/-- `AVISOS_CONFIG['AVISO_6']` metadata. -/
def AVISO_6_CONFIG : AvisoConfig :=
  { nombre := "Alerta de nieve"
    QMART := "O1", QMTXT := "Alerta de nieve"
    TPLNR := "RGA-INF-PAVIM", SWERK := "RGA", INGRP := "OPE", GEWRK := "ADM_AD"
    PRIOK := "1", QMGRP := "YB-DERR1", QMCOD := "Y115" }

/-- A generated alert (`avisos.py:412-416`): the copied catalog metadata
plus the keys set at generation time (`tipo`, `prioridad`,
`fecha_generacion`). -/
structure Aviso where
  config : AvisoConfig
  tipo : String
  prioridad : Nat
  fecha_generacion : String
deriving DecidableEq, Repr

/-- Insert an alert into a list sorted ascending by `prioridad`, before
the first element of strictly greater priority. -/
def insertarPorPrioridad (a : Aviso) : List Aviso → List Aviso
  | [] => [a]
  | b :: t =>
      if b.prioridad < a.prioridad then b :: insertarPorPrioridad a t
      else a :: b :: t

/-- `avisos_generados.sort(key=lambda x: x['prioridad'])`
(`avisos.py:468`).  Python's `list.sort` is a stable ascending sort;
stable sorts with the same key agree pointwise, so it is modelled by this
stable insertion sort. -/
def ordenarPorPrioridad : List Aviso → List Aviso
  | [] => []
  | a :: t => insertarPorPrioridad a (ordenarPorPrioridad t)

/-- The dict returned by `generar_avisos` (`avisos.py:470-476`). -/
structure ResultadoAvisos where
  avisos_generados : List Aviso
  total_avisos : Nat
  condiciones_evaluadas : CondicionesClima
  datos_marwis : Option MarwisData
  fecha_evaluacion : String
deriving DecidableEq, Repr

/-- `generar_avisos` (`avisos.py:386-488`): evaluates the seven rules
independently in source order (0, 6, 5, 4, 3, 2, 1), appending an alert
with the fixed priority rank of each matching rule (0, 1, 2, 3, 4, 5, 6
respectively), then sorts ascending by priority.  `marwis_data` stands
for the value read from `station_data.json` (`None` when missing or
unreadable); `now` stands for `datetime.now().isoformat()`. -/
def generar_avisos (condiciones_clima : CondicionesClima)
    (marwis_data : Option MarwisData) (now : String) : ResultadoAvisos :=
  let avisos_generados :=
    (if evaluar_condiciones_aviso_0 condiciones_clima then
      [⟨AVISO_0_CONFIG, "AVISO_0", 0, now⟩] else [])
    ++ (if evaluar_condiciones_aviso_6 condiciones_clima then
      [⟨AVISO_6_CONFIG, "AVISO_6", 1, now⟩] else [])
    ++ (if evaluar_condiciones_aviso_5 condiciones_clima then
      [⟨AVISO_5_CONFIG, "AVISO_5", 2, now⟩] else [])
    ++ (if evaluar_condiciones_aviso_4 condiciones_clima marwis_data then
      [⟨AVISO_4_CONFIG, "AVISO_4", 3, now⟩] else [])
    ++ (if evaluar_condiciones_aviso_3 condiciones_clima marwis_data then
      [⟨AVISO_3_CONFIG, "AVISO_3", 4, now⟩] else [])
    ++ (if evaluar_condiciones_aviso_2 condiciones_clima then
      [⟨AVISO_2_CONFIG, "AVISO_2", 5, now⟩] else [])
    ++ (if evaluar_condiciones_aviso_1 condiciones_clima then
      [⟨AVISO_1_CONFIG, "AVISO_1", 6, now⟩] else [])
  let ordenados := ordenarPorPrioridad avisos_generados
  { avisos_generados := ordenados
    total_avisos := ordenados.length
    condiciones_evaluadas := condiciones_clima
    datos_marwis := marwis_data
    fecha_evaluacion := now }

/-- The rule identifiers of the alerts of a batch, in batch order. -/
def tiposGenerados (r : ResultadoAvisos) : List String :=
  r.avisos_generados.map (·.tipo)

/-!
## Reference-level model of the alert instantiation

`generar_avisos` builds each alert as `AVISOS_CONFIG[tipo].copy()`
(`avisos.py:412`), and Python's `dict.copy()` is a *shallow* copy: the
nested `condiciones` dict is shared by reference between the copy and the
catalog.  To reason about that observable aliasing, this section models
the catalog as a store of dicts addressed by natural numbers, with the
nested `condiciones` dicts held by reference, and models `dict.copy()`
and key assignment with Python's semantics.
-/

/-- A Python value stored in a dict of the catalog model: a string, a
number, a boolean, a list of strings, or a reference to another dict in
the store. -/
inductive PyVal
  | s (v : String)
  | n (v : ℚ)
  | b (v : Bool)
  | lst (v : List String)
  | ref (a : Nat)
deriving DecidableEq, Repr

/-- A Python dict: key/value pairs in insertion order. -/
abbrev PyDict := List (String × PyVal)

/-- A heap of dicts; an address is an index into the list. -/
abbrev PyStore := List PyDict

/-- Read key `k` of the dict at address `a`. -/
def dictGet (st : PyStore) (a : Nat) (k : String) : Option PyVal :=
  (st.getD a []).lookup k

/-- Python `d[k] = v`: overwrite in place if the key exists (keeping
insertion order), else append. -/
def dictSetKey (d : PyDict) (k : String) (v : PyVal) : PyDict :=
  if d.any (fun p => p.1 = k) then
    d.map (fun p => if p.1 = k then (k, v) else p)
  else d ++ [(k, v)]

/-- Assign key `k` of the dict at address `a`. -/
def storeSet (st : PyStore) (a : Nat) (k : String) (v : PyVal) : PyStore :=
  st.set a (dictSetKey (st.getD a []) k v)

/-- Python `dict.copy()`: allocate a fresh dict with the same key/value
pairs.  Values that are references stay shared (shallow copy).  Returns
the extended store and the new address. -/
def dictCopy (st : PyStore) (a : Nat) : PyStore × Nat :=
  (st ++ [st.getD a []], st.length)

/-- `AVISOS_CONFIG['AVISO_0']['condiciones']` (`avisos.py:34-37`). -/
def condicionesDict0 : PyDict :=
  [("temp_ambiente_max", .n 0), ("viento_max", .n 100)]

/-- `AVISOS_CONFIG['AVISO_1']['condiciones']` (`avisos.py:51-58`). -/
def condicionesDict1 : PyDict :=
  [("temp_ambiente_min", .n 3), ("temp_ambiente_max", .n 6),
   ("temp_rocio_diferencia", .n (-3)), ("temp_pista_max", .n 0),
   ("humedad_min", .n 56), ("viento_max", .n 36)]

/-- `AVISOS_CONFIG['AVISO_2']['condiciones']` (`avisos.py:73-80`). -/
def condicionesDict2 : PyDict :=
  [("temp_ambiente_min", .n (-50)), ("temp_ambiente_max", .n 3),
   ("temp_rocio_diferencia", .n (-1)), ("temp_pista_max", .n 0),
   ("humedad_min", .n 40), ("viento_max", .n 50)]

/-- `AVISOS_CONFIG['AVISO_3']['condiciones']` (`avisos.py:94-101`). -/
def condicionesDict3 : PyDict :=
  [("temp_ambiente_max", .n 0), ("temp_rocio_diferencia", .n (-1)),
   ("temp_pista_max", .n 0), ("humedad_min", .n 63), ("viento_max", .n 33),
   ("sin_lectura_marwis_2h", .b true)]

/-- `AVISOS_CONFIG['AVISO_4']['condiciones']` (`avisos.py:114-122`). -/
def condicionesDict4 : PyDict :=
  [("temp_ambiente_max", .n 0), ("temp_rocio_diferencia", .n (-1)),
   ("temp_pista_max", .n 0), ("humedad_min", .n 63), ("viento_max", .n 33),
   ("surface_condition", .lst ["WET", "DAMP"]), ("marwis_ultimos_15min", .b true)]

/-- `AVISOS_CONFIG['AVISO_5']['condiciones']` (`avisos.py:135-142`). -/
def condicionesDict5 : PyDict :=
  [("temp_ambiente_max", .n 0), ("temp_rocio_diferencia", .n (-1)),
   ("temp_pista_max", .n 0), ("humedad_min", .n 63), ("viento_max", .n 33),
   ("pronostico_lluvia_2h", .b true)]

/-- `AVISOS_CONFIG['AVISO_6']['condiciones']` (`avisos.py:155-162`). -/
def condicionesDict6 : PyDict :=
  [("temp_ambiente_max", .n 0), ("temp_rocio_diferencia", .n (-1)),
   ("temp_pista_max", .n 0), ("humedad_min", .n 63), ("viento_max", .n 33),
   ("pronostico_nieve_3h", .b true)]

/-- Rule dict of `AVISOS_CONFIG` at store level: the metadata keys in
source order, with the nested `condiciones` dict held by reference at
address `condAddr` (= the rule number). -/
def reglaDict (cfg : AvisoConfig) (condAddr : Nat) : PyDict :=
  [("nombre", .s cfg.nombre)]
  ++ (match cfg.clase with | some c => [("clase", .s c)] | none => [])
  ++ [("QMART", .s cfg.QMART), ("QMTXT", .s cfg.QMTXT), ("TPLNR", .s cfg.TPLNR),
      ("SWERK", .s cfg.SWERK), ("INGRP", .s cfg.INGRP), ("GEWRK", .s cfg.GEWRK),
      ("PRIOK", .s cfg.PRIOK), ("QMGRP", .s cfg.QMGRP), ("QMCOD", .s cfg.QMCOD)]
  ++ (match cfg.nota with | some nt => [("nota", .s nt)] | none => [])
  ++ [("condiciones", .ref condAddr)]

/-- The store holding `AVISOS_CONFIG`: addresses 0-6 are the
`condiciones` dicts of rules 0-6, addresses 7-13 the rule dicts
themselves. -/
def catalogoStore : PyStore :=
  [condicionesDict0, condicionesDict1, condicionesDict2, condicionesDict3,
   condicionesDict4, condicionesDict5, condicionesDict6,
   reglaDict AVISO_0_CONFIG 0, reglaDict AVISO_1_CONFIG 1,
   reglaDict AVISO_2_CONFIG 2, reglaDict AVISO_3_CONFIG 3,
   reglaDict AVISO_4_CONFIG 4, reglaDict AVISO_5_CONFIG 5,
   reglaDict AVISO_6_CONFIG 6]

/-- Store address of the rule dict of rule `i`. -/
def direccionRegla (i : Nat) : Nat := 7 + i

/-- `aviso = AVISOS_CONFIG[tipo].copy(); aviso['tipo'] = ...;
aviso['prioridad'] = ...; aviso['fecha_generacion'] = ...`
(`avisos.py:412-415`, one matched rule): shallow-copies the rule dict and
sets the three generation-time keys on the copy.  Returns the new store
and the address of the alert dict. -/
def instanciarAviso (st : PyStore) (direccion : Nat) (tipo : String)
    (prioridad : ℚ) (fecha : String) : PyStore × Nat :=
  let copia := dictCopy st direccion
  let st1 := storeSet copia.1 copia.2 "tipo" (.s tipo)
  let st2 := storeSet st1 copia.2 "prioridad" (.n prioridad)
  let st3 := storeSet st2 copia.2 "fecha_generacion" (.s fecha)
  (st3, copia.2)

/-- What a reader of the catalog observes for threshold `k` of rule `i`:
dereference the rule dict's `condiciones` entry and read `k` there. -/
def verUmbralCatalogo (st : PyStore) (i : Nat) (k : String) : Option PyVal :=
  match dictGet st (direccionRegla i) "condiciones" with
  | some (.ref a) => dictGet st a k
  | _ => none

/-- The mutation scenario for the aliasing question: instantiate the
AVISO_0 alert, then assign `temp_ambiente_max := 5` *through the returned
alert's own* `condiciones` reference (never touching the catalog
directly). -/
def escenarioMutacion : PyStore :=
  let p := instanciarAviso catalogoStore (direccionRegla 0) "AVISO_0" 0 "2026-01-01T00:00:00"
  match dictGet p.1 p.2 "condiciones" with
  | some (.ref a) => storeSet p.1 a "temp_ambiente_max" (.n 5)
  | _ => p.1

/-!
## Token cache and delivery (`src/backend/isuite.py`)

`time.time()` instants and `expires_in` lifetimes are rationals.  The
token endpoint and the iFlow endpoint are modelled as oracles indexed by
the number of requests made so far.
-/

/-- `TOKEN_EXPIRY_MARGIN` (`isuite.py:52`). -/
def TOKEN_EXPIRY_MARGIN : ℚ := 60

/-- `TokenCache` (`isuite.py:61-78`): `access_token` is `None` at start
(`Option`); Python's truthiness test `not self.access_token` is also true
for the empty string. -/
structure TokenCache where
  access_token : Option String := none
  expires_at : ℚ := 0
  token_type : String := "Bearer"
deriving DecidableEq, Repr

/-- `TokenCache.is_valid` (`isuite.py:68-73`): a token is present
(non-`None`, non-empty) and the current time is strictly before
`expires_at - TOKEN_EXPIRY_MARGIN`. -/
def TokenCache.is_valid (c : TokenCache) (now : ℚ) : Bool :=
  match c.access_token with
  | none => false
  | some t => if t = "" then false else decide (now < c.expires_at - TOKEN_EXPIRY_MARGIN)

/-- `TokenCache.clear` (`isuite.py:75-78`): drops the token and resets
the expiry; `token_type` is left as is. -/
def TokenCache.clear (c : TokenCache) : TokenCache :=
  { c with access_token := none, expires_at := 0 }

/-- Outcome of one request to the OAuth2 token endpoint.  `exito` is an
HTTP 200 carrying the parsed JSON fields (`access_token`, optional
`expires_in`, optional `token_type`); `fallo` covers a non-200 status,
a timeout and a connection error, all of which raise `OAuthTokenError`
in the source. -/
inductive TokenOutcome
  | exito (access_token : String) (expires_in : Option ℚ) (token_type : Option String)
  | fallo
deriving DecidableEq, Repr

/-- Outcome of one POST to the iFlow endpoint: an HTTP status, a timeout
or a connection error. -/
inductive HttpOutcome
  | status (code : Nat)
  | timeout
  | connError
deriving DecidableEq, Repr

/-- Token-endpoint state threaded through the delivery: the process-wide
cache and the index of the next token-endpoint response. -/
structure TokenCtx where
  cache : TokenCache
  tokenIdx : Nat
deriving DecidableEq, Repr

/-- Error category of a failed token acquisition
(`ConfigurationError` / `OAuthTokenError`). -/
inductive ErrToken
  | configuracion
  | oauth
deriving DecidableEq, Repr

/-- `obtener_token_oauth2` (`isuite.py:145-255`).  Returns the token (or
the raised error), the new state, and the number of token-endpoint
requests made (0 when served from cache, else 1).  The cached token is
used when valid and no refresh is forced; a missing configuration fails
before any request; an empty `access_token` in a 200 response raises; on
success all three cache fields are overwritten, with `expires_in`
defaulting to 3600 and `token_type` to `"Bearer"`.  On any failure the
cache is left untouched. -/
def obtener_token_oauth2 (force_refresh : Bool) (config_ok : Bool) (now : ℚ)
    (tok : Nat → TokenOutcome) (ctx : TokenCtx) :
    Except ErrToken String × TokenCtx × Nat :=
  if !force_refresh && ctx.cache.is_valid now then
    (.ok (ctx.cache.access_token.getD ""), ctx, 0)
  else if !config_ok then
    (.error .configuracion, ctx, 0)
  else
    match tok ctx.tokenIdx with
    | .fallo => (.error .oauth, ⟨ctx.cache, ctx.tokenIdx + 1⟩, 1)
    | .exito access_token expires_in token_type =>
        if access_token = "" then (.error .oauth, ⟨ctx.cache, ctx.tokenIdx + 1⟩, 1)
        else
          (.ok access_token,
           ⟨{ access_token := some access_token
              expires_at := now + expires_in.getD 3600
              token_type := token_type.getD "Bearer" },
            ctx.tokenIdx + 1⟩, 1)

/-- A token-endpoint response that yields a usable token: HTTP 200 with a
non-empty `access_token`. -/
def tokenExitoso : TokenOutcome → Bool
  | .exito access_token _ _ => access_token != ""
  | .fallo => false

/-- The result dict of `enviar_aviso_a_isuite` (`isuite.py:384-390`),
restricted to the machine-checkable fields (the `response_body` echo and
the timestamp are omitted). -/
structure Resultado where
  success : Bool := false
  status_code : Option Nat := none
  message : String := ""
deriving DecidableEq, Repr

/-- Counters of the observable side effects of one delivery call. -/
structure EnvioStats where
  llamadasToken : Nat := 0
  llamadasIflow : Nat := 0
  invalidaciones : Nat := 0
  refrescosForzados : Nat := 0
deriving DecidableEq, Repr

/-- The alert-JSON argument of `enviar_aviso_a_isuite` when it is a dict:
the `avisos_generados` key (absent or a list) and the number of other
keys (for Python dict truthiness). -/
structure AvisoJson where
  avisos_generados : Option (List Aviso) := none
  otras_claves : Nat := 0
deriving DecidableEq, Repr

/-- The argument of `enviar_aviso_a_isuite`: `None`, a non-dict value
(with its truthiness), or a dict. -/
inductive EntradaAviso
  | nula
  | otro (truthy : Bool)
  | dic (d : AvisoJson)
deriving DecidableEq, Repr

/-- Python truthiness of the argument (`if not aviso_json`): `None`,
falsy non-dicts and the empty dict are falsy. -/
def EntradaAviso.esFalsy : EntradaAviso → Bool
  | .nula => true
  | .otro truthy => !truthy
  | .dic d => !(d.avisos_generados.isSome || d.otras_claves != 0)

/-- Result of one iteration of the send loop (`isuite.py:456-536`):
either a terminal result, or "first attempt got a 401, invalidate and
retry". -/
inductive SalidaIntento
  | fin (r : Resultado)
  | reintento (r : Resultado)
deriving DecidableEq, Repr

/-- One iteration of the send loop, given the outcome of the POST to the
iFlow.  Mirrors the status-code cascade of `isuite.py:467-536`:
`status_code` is recorded before classification (so a timeout or
connection error keeps the previous value); 200/201/202 succeed; a 401
on a non-final attempt asks for a retry and on the final attempt is
terminal; then 403, other 4xx, 5xx, and an unexpected-status fallback;
a timeout or connection error is terminal. -/
def intentoEnvio (o : HttpOutcome) (r : Resultado) (esPrimerIntento : Bool) :
    SalidaIntento :=
  match o with
  | .timeout => .fin { r with success := false, message := "Timeout al llamar al iFlow (>30s)" }
  | .connError => .fin { r with message := "Error de conexión al iFlow" }
  | .status code =>
      let r := { r with status_code := some code }
      if code = 200 || code = 201 || code = 202 then
        .fin { r with success := true, message := "Aviso enviado exitosamente" }
      else if code = 401 then
        if esPrimerIntento then .reintento r
        else .fin { r with message := "Error de autenticación persistente: HTTP 401" }
      else if code = 403 then
        .fin { r with message := "Error de autorización: HTTP 403 - Acceso denegado" }
      else if 400 ≤ code && code < 500 then
        .fin { r with message := "Error del cliente" }
      else if 500 ≤ code then
        .fin { r with message := "Error del servidor SAP Integration Suite" }
      else .fin { r with message := "Respuesta inesperada" }

/-- `enviar_aviso_a_isuite` (`isuite.py:349-542`).  Validation: a falsy
argument (None / falsy non-dict / empty dict) and a truthy non-dict fail
with `status_code = None`; a dict without generated alerts short-circuits
to success with status 200 and no network traffic.  Then configuration is
checked, a token obtained (cache or endpoint), and the payload posted with
`max_retries = 2`: on a first-attempt 401 the cache is invalidated
(`invalidar_token_cache`, `isuite.py:258-265`), a fresh token is force-
acquired and the POST retried exactly once; every other outcome of either
attempt is terminal.  Returns the result, the side-effect counters and
the final cache. -/
def enviar_aviso_a_isuite (entrada : EntradaAviso) (config_ok : Bool)
    (cache0 : TokenCache) (now : ℚ) (tok : Nat → TokenOutcome)
    (resp : Nat → HttpOutcome) : Resultado × EnvioStats × TokenCache :=
  if entrada.esFalsy then
    ({ message := "Error: aviso_json está vacío o es None" }, {}, cache0)
  else
    match entrada with
    | .nula => ({ message := "Error: aviso_json está vacío o es None" }, {}, cache0)
    | .otro _ => ({ message := "Error: aviso_json debe ser un dict" }, {}, cache0)
    | .dic d =>
      let avisos_generados := d.avisos_generados.getD []
      if avisos_generados.isEmpty then
        ({ success := true, status_code := some 200
           message := "No hay avisos generados para enviar" }, {}, cache0)
      else if !config_ok then
        ({ message := "Error de configuración" }, {}, cache0)
      else
        match obtener_token_oauth2 false config_ok now tok ⟨cache0, 0⟩ with
        | (.error _, ctx, c) =>
            ({ message := "Error OAuth2" }, { llamadasToken := c }, ctx.cache)
        | (.ok _, ctx, c) =>
            match intentoEnvio (resp 0) {} true with
            | .fin r => (r, { llamadasToken := c, llamadasIflow := 1 }, ctx.cache)
            | .reintento r1 =>
                let ctx1 : TokenCtx := ⟨ctx.cache.clear, ctx.tokenIdx⟩
                match obtener_token_oauth2 true config_ok now tok ctx1 with
                | (.error _, ctx2, c2) =>
                    ({ r1 with message := "Error renovando token" },
                     { llamadasToken := c + c2, llamadasIflow := 1
                       invalidaciones := 1, refrescosForzados := 1 }, ctx2.cache)
                | (.ok _, ctx2, c2) =>
                    match intentoEnvio (resp 1) r1 false with
                    | .fin r =>
                        (r, { llamadasToken := c + c2, llamadasIflow := 2
                              invalidaciones := 1, refrescosForzados := 1 }, ctx2.cache)
                    | .reintento r =>
                        (r, { llamadasToken := c + c2, llamadasIflow := 2
                              invalidaciones := 1, refrescosForzados := 1 }, ctx2.cache)

/-!
## Lemmas about the stable sort and batch membership
-/

theorem mem_insertarPorPrioridad {x a : Aviso} {l : List Aviso} :
    x ∈ insertarPorPrioridad a l ↔ x = a ∨ x ∈ l := by
  induction l with
  | nil => simp [insertarPorPrioridad]
  | cons b t ih =>
      simp only [insertarPorPrioridad]
      by_cases hb : b.prioridad < a.prioridad
      · simp only [if_pos hb, List.mem_cons, ih]
        tauto
      · simp only [if_neg hb, List.mem_cons]

theorem mem_ordenarPorPrioridad {x : Aviso} {l : List Aviso} :
    x ∈ ordenarPorPrioridad l ↔ x ∈ l := by
  induction l with
  | nil => simp [ordenarPorPrioridad]
  | cons a t ih => simp [ordenarPorPrioridad, mem_insertarPorPrioridad, ih]

theorem pairwise_insertarPorPrioridad {a : Aviso} {l : List Aviso}
    (h : l.Pairwise (fun x y => x.prioridad ≤ y.prioridad)) :
    (insertarPorPrioridad a l).Pairwise (fun x y => x.prioridad ≤ y.prioridad) := by
  induction l with
  | nil => simp [insertarPorPrioridad]
  | cons b t ih =>
      rw [List.pairwise_cons] at h
      simp only [insertarPorPrioridad]
      by_cases hb : b.prioridad < a.prioridad
      · rw [if_pos hb, List.pairwise_cons]
        refine ⟨fun x hx => ?_, ih h.2⟩
        rcases mem_insertarPorPrioridad.mp hx with hxa | hxt
        · subst hxa; omega
        · exact h.1 x hxt
      · rw [if_neg hb, List.pairwise_cons, List.pairwise_cons]
        refine ⟨fun x hx => ?_, h⟩
        rcases List.mem_cons.mp hx with hxb | hxt
        · subst hxb; omega
        · exact le_trans (by omega) (h.1 x hxt)

theorem pairwise_ordenarPorPrioridad (l : List Aviso) :
    (ordenarPorPrioridad l).Pairwise (fun x y => x.prioridad ≤ y.prioridad) := by
  induction l with
  | nil => simp [ordenarPorPrioridad]
  | cons a t ih => exact pairwise_insertarPorPrioridad ih

theorem mem_if_singleton {b : Bool} {v x : Aviso} :
    (x ∈ if b then [v] else []) ↔ b = true ∧ x = v := by
  cases b <;> simp

/-- Membership in the identifier list of a generated batch, rule by rule:
an identifier is in the batch iff it is one of the seven fixed rule
identifiers and that rule's own predicate holds.  Each rule's presence
depends only on its own evaluation. -/
theorem mem_tiposGenerados (c : CondicionesClima) (marwis : Option MarwisData)
    (now : String) (s : String) :
    s ∈ tiposGenerados (generar_avisos c marwis now) ↔
      (evaluar_condiciones_aviso_0 c = true ∧ s = "AVISO_0")
      ∨ (evaluar_condiciones_aviso_6 c = true ∧ s = "AVISO_6")
      ∨ (evaluar_condiciones_aviso_5 c = true ∧ s = "AVISO_5")
      ∨ (evaluar_condiciones_aviso_4 c marwis = true ∧ s = "AVISO_4")
      ∨ (evaluar_condiciones_aviso_3 c marwis = true ∧ s = "AVISO_3")
      ∨ (evaluar_condiciones_aviso_2 c = true ∧ s = "AVISO_2")
      ∨ (evaluar_condiciones_aviso_1 c = true ∧ s = "AVISO_1") := by
  simp only [tiposGenerados, generar_avisos, List.mem_map]
  constructor
  · rintro ⟨a, ha, rfl⟩
    rw [mem_ordenarPorPrioridad] at ha
    simp only [List.mem_append, mem_if_singleton] at ha
    rcases ha with ((((((⟨h, rfl⟩ | ⟨h, rfl⟩) | ⟨h, rfl⟩) | ⟨h, rfl⟩) | ⟨h, rfl⟩) | ⟨h, rfl⟩) | ⟨h, rfl⟩) <;> tauto
  · intro h
    rcases h with ⟨h, rfl⟩ | ⟨h, rfl⟩ | ⟨h, rfl⟩ | ⟨h, rfl⟩ | ⟨h, rfl⟩ | ⟨h, rfl⟩ | ⟨h, rfl⟩
    · exact ⟨⟨AVISO_0_CONFIG, "AVISO_0", 0, now⟩, by
        rw [mem_ordenarPorPrioridad]
        simp [List.mem_append, mem_if_singleton, h], rfl⟩
    · exact ⟨⟨AVISO_6_CONFIG, "AVISO_6", 1, now⟩, by
        rw [mem_ordenarPorPrioridad]
        simp [List.mem_append, mem_if_singleton, h], rfl⟩
    · exact ⟨⟨AVISO_5_CONFIG, "AVISO_5", 2, now⟩, by
        rw [mem_ordenarPorPrioridad]
        simp [List.mem_append, mem_if_singleton, h], rfl⟩
    · exact ⟨⟨AVISO_4_CONFIG, "AVISO_4", 3, now⟩, by
        rw [mem_ordenarPorPrioridad]
        simp [List.mem_append, mem_if_singleton, h], rfl⟩
    · exact ⟨⟨AVISO_3_CONFIG, "AVISO_3", 4, now⟩, by
        rw [mem_ordenarPorPrioridad]
        simp [List.mem_append, mem_if_singleton, h], rfl⟩
    · exact ⟨⟨AVISO_2_CONFIG, "AVISO_2", 5, now⟩, by
        rw [mem_ordenarPorPrioridad]
        simp [List.mem_append, mem_if_singleton, h], rfl⟩
    · exact ⟨⟨AVISO_1_CONFIG, "AVISO_1", 6, now⟩, by
        rw [mem_ordenarPorPrioridad]
        simp [List.mem_append, mem_if_singleton, h], rfl⟩

/-!
## Claim theorems
-/

/-- A snapshot with the dew-point key absent and every other field inside
the AVISO_1 thresholds (ambient 4 °C, pavement −1 °C, humidity 60 %,
wind 20 km/h). -/
def condicionesSinPuntoRocio : CondicionesClima :=
  { temperatura_actual := some (.num 4), punto_rocio := none,
    temperatura_pista := some (.num (-1)), humedad := some (.num 60),
    viento := some (.num 20) }

/-- C1: the claim states that a snapshot with the dew-point field absent
makes each of AVISO_1..AVISO_6 evaluate to not-matched.  The code instead
defaults an absent `punto_rocio` to 999, and 999 satisfies the lower-bound
condition `temp_rocio >= temp_amb + diferencia`, so AVISO_1 *matches* on
this snapshot whose dew point is absent: the claim fails on the code. -/
theorem C1_rocio_ausente_aviso1_coincide :
    condicionesSinPuntoRocio.punto_rocio = none
    ∧ evaluar_condiciones_aviso_1 condicionesSinPuntoRocio = true := by
  refine ⟨rfl, ?_⟩
  norm_num [evaluar_condiciones_aviso_1, condicionesSinPuntoRocio]

/-- The claimed C2 scenario: ambient −5 °C, humidity 90 %, wind 10 km/h,
pavement −3 °C, every other optional field absent. -/
def condicionesEscenarioSubCero : CondicionesClima :=
  { temperatura_actual := some (.num (-5)), humedad := some (.num 90),
    viento := some (.num 10), temperatura_pista := some (.num (-3)) }

/-- C2: the claim states this scenario yields exactly one alert
(AVISO_0).  The code yields *three*: the absent dew point defaults to 999,
which satisfies the dew-point conditions of AVISO_2 and AVISO_3 (whose
remaining thresholds this snapshot meets, the MARWIS reading being
absent), so the batch is [AVISO_0, AVISO_3, AVISO_2]. -/
theorem C2_lote_tres_avisos (now : String) :
    condicionesEscenarioSubCero.punto_rocio = none
    ∧ tiposGenerados (generar_avisos condicionesEscenarioSubCero none now)
        = ["AVISO_0", "AVISO_3", "AVISO_2"]
    ∧ (generar_avisos condicionesEscenarioSubCero none now).total_avisos = 3 := by
  have h0 : evaluar_condiciones_aviso_0 condicionesEscenarioSubCero = true := by
    norm_num [evaluar_condiciones_aviso_0, vientoAviso0, condicionesEscenarioSubCero]
  have h1 : evaluar_condiciones_aviso_1 condicionesEscenarioSubCero = false := by
    norm_num [evaluar_condiciones_aviso_1, condicionesEscenarioSubCero]
  have h2 : evaluar_condiciones_aviso_2 condicionesEscenarioSubCero = true := by
    norm_num [evaluar_condiciones_aviso_2, condicionesEscenarioSubCero]
  have h3 : evaluar_condiciones_aviso_3 condicionesEscenarioSubCero none = true := by
    norm_num [evaluar_condiciones_aviso_3, condicionesEscenarioSubCero]
  have h4 : evaluar_condiciones_aviso_4 condicionesEscenarioSubCero none = false := by
    norm_num [evaluar_condiciones_aviso_4, condicionesEscenarioSubCero]
  have h5 : evaluar_condiciones_aviso_5 condicionesEscenarioSubCero = false := by
    norm_num [evaluar_condiciones_aviso_5, condicionesEscenarioSubCero]
  have h6 : evaluar_condiciones_aviso_6 condicionesEscenarioSubCero = false := by
    norm_num [evaluar_condiciones_aviso_6, condicionesEscenarioSubCero]
  refine ⟨rfl, ?_, ?_⟩ <;>
    simp [generar_avisos, tiposGenerados, h0, h1, h2, h3, h4, h5, h6,
      ordenarPorPrioridad, insertarPorPrioridad]

/-- C4: for any snapshot with a numeric ambient temperature below 0 and
(interpreted) wind below 100  — absence and strings count as 0 — rule 0
matches and AVISO_0 is in the batch, whatever every other field holds;
and each other rule's presence in the same batch is equivalent to its own
predicate, so rule 0 neither suppresses nor is suppressed and several
rules may share a batch. -/
theorem C4_aviso0_subcero_independiente (c : CondicionesClima)
    (marwis : Option MarwisData) (now : String) (t : ℚ)
    (htemp : c.temperatura_actual = some (.num t)) (ht : t < 0)
    (hv : vientoAviso0 c < 100) :
    evaluar_condiciones_aviso_0 c = true
    ∧ "AVISO_0" ∈ tiposGenerados (generar_avisos c marwis now)
    ∧ ("AVISO_1" ∈ tiposGenerados (generar_avisos c marwis now)
        ↔ evaluar_condiciones_aviso_1 c = true)
    ∧ ("AVISO_2" ∈ tiposGenerados (generar_avisos c marwis now)
        ↔ evaluar_condiciones_aviso_2 c = true)
    ∧ ("AVISO_3" ∈ tiposGenerados (generar_avisos c marwis now)
        ↔ evaluar_condiciones_aviso_3 c marwis = true)
    ∧ ("AVISO_4" ∈ tiposGenerados (generar_avisos c marwis now)
        ↔ evaluar_condiciones_aviso_4 c marwis = true)
    ∧ ("AVISO_5" ∈ tiposGenerados (generar_avisos c marwis now)
        ↔ evaluar_condiciones_aviso_5 c = true)
    ∧ ("AVISO_6" ∈ tiposGenerados (generar_avisos c marwis now)
        ↔ evaluar_condiciones_aviso_6 c = true) := by
  have h0 : evaluar_condiciones_aviso_0 c = true := by
    simp only [evaluar_condiciones_aviso_0, htemp, Option.getD_some]
    simp only [decide_eq_true_eq]
    exact ⟨ht, hv⟩
  refine ⟨h0, ?_, ?_, ?_, ?_, ?_, ?_, ?_⟩
  · rw [mem_tiposGenerados]
    exact Or.inl ⟨h0, rfl⟩
  all_goals simp [mem_tiposGenerados]

/-- A snapshot that only sets the sub-zero conditions: ambient −5 °C,
wind 10 km/h, all other fields absent. -/
def condicionesSoloBajoCero : CondicionesClima :=
  { temperatura_actual := some (.num (-5)), viento := some (.num 10) }

/-- Witness for the C4 theorem at ambient −5 °C, wind 10 km/h and every
other field absent. -/
theorem C4_aviso0_subcero_independiente_witness :
    evaluar_condiciones_aviso_0 condicionesSoloBajoCero = true
    ∧ "AVISO_0" ∈ tiposGenerados (generar_avisos condicionesSoloBajoCero none "2026-01-01") := by
  have h := C4_aviso0_subcero_independiente condicionesSoloBajoCero none "2026-01-01"
    (-5) rfl (by decide) (by decide)
  exact ⟨h.1, h.2.1⟩

/-- C5: in every generated batch the alerts appear in non-decreasing
order of priority rank. -/
theorem C5_lote_ordenado_por_prioridad (c : CondicionesClima)
    (marwis : Option MarwisData) (now : String) :
    ((generar_avisos c marwis now).avisos_generados).Pairwise
      (fun x y => x.prioridad ≤ y.prioridad) := by
  simp only [generar_avisos]
  exact pairwise_ordenarPorPrioridad _

/-- The closed set of rule identifiers of the catalog. -/
def tiposConocidos : List String :=
  ["AVISO_0", "AVISO_1", "AVISO_2", "AVISO_3", "AVISO_4", "AVISO_5", "AVISO_6"]

/-- C9: for every input (including snapshots with malformed, string-valued
fields — the cases where a rule body raises in Python and the handler
returns `False`), every alert of the generated batch carries one of the
seven known rule identifiers; the evaluation is a total function of its
inputs. -/
theorem C9_tipos_conocidos (c : CondicionesClima) (marwis : Option MarwisData)
    (now : String) :
    (generar_avisos c marwis now).avisos_generados.all
      (fun a => tiposConocidos.contains a.tipo) = true := by
  rw [List.all_eq_true]
  intro a ha
  have hm : a.tipo ∈ tiposGenerados (generar_avisos c marwis now) :=
    List.mem_map_of_mem _ ha
  rw [mem_tiposGenerados] at hm
  rcases hm with ⟨_, h⟩ | ⟨_, h⟩ | ⟨_, h⟩ | ⟨_, h⟩ | ⟨_, h⟩ | ⟨_, h⟩ | ⟨_, h⟩ <;>
    rw [h] <;> decide

/-- The AVISO_0 alert dict as instantiated by `generar_avisos` in the
store model (shallow `dict.copy()` plus the three generation-time keys). -/
def avisoInstanciado0 : PyStore × Nat :=
  instanciarAviso catalogoStore (direccionRegla 0) "AVISO_0" 0 "2026-01-01T00:00:00"

/-- C6 counterexample: the claim states each alert carries a *deep* copy
of its rule's catalog metadata, so that no mutation of a returned alert's
metadata can be observed through the catalog.  `dict.copy()` is shallow:
the instantiated AVISO_0 alert's `condiciones` entry is the very
reference (address 0) held by the catalog, and assigning
`temp_ambiente_max := 5` through the *alert's* reference
(`escenarioMutacion`) changes what a reader of the *catalog* observes
(from 0 to 5). -/
theorem C6_copia_superficial_contraejemplo :
    dictGet avisoInstanciado0.1 avisoInstanciado0.2 "condiciones" = some (.ref 0)
    ∧ dictGet catalogoStore (direccionRegla 0) "condiciones" = some (.ref 0)
    ∧ verUmbralCatalogo catalogoStore 0 "temp_ambiente_max" = some (.n 0)
    ∧ verUmbralCatalogo escenarioMutacion 0 "temp_ambiente_max" = some (.n 5) :=
  ⟨rfl, rfl, rfl, rfl⟩

/-- C6 amended: every alert carries a *shallow* copy of its rule's
catalog dict: instantiating any of the seven alerts (with any `tipo`,
priority and timestamp) leaves the catalog — the first 14 store
addresses — unchanged, and the alert's nested `condiciones` entry is the
same reference the catalog entry holds, so the nested threshold dict is
shared rather than deep-copied. -/
theorem C6_copia_superficial_compartida (i : Fin 7) (tipo fecha : String) (pri : ℚ) :
    List.take 14 (instanciarAviso catalogoStore (direccionRegla i) tipo pri fecha).1
      = catalogoStore
    ∧ dictGet (instanciarAviso catalogoStore (direccionRegla i) tipo pri fecha).1
        (instanciarAviso catalogoStore (direccionRegla i) tipo pri fecha).2 "condiciones"
      = some (.ref i) := by
  fin_cases i <;> exact ⟨rfl, rfl⟩

/-- Witness for the amended C6 theorem at rule 3. -/
theorem C6_copia_superficial_compartida_witness :
    List.take 14 (instanciarAviso catalogoStore (direccionRegla 3) "AVISO_3" 4 "t").1
      = catalogoStore
    ∧ dictGet (instanciarAviso catalogoStore (direccionRegla 3) "AVISO_3" 4 "t").1
        (instanciarAviso catalogoStore (direccionRegla 3) "AVISO_3" 4 "t").2 "condiciones"
      = some (.ref 3) :=
  C6_copia_superficial_compartida 3 "AVISO_3" "t" 4

/-!
## Lemmas about the send loop and the token provider
-/

theorem intentoEnvio_401_primero (r : Resultado) :
    intentoEnvio (.status 401) r true = .reintento { r with status_code := some 401 } := by
  simp [intentoEnvio]

theorem intentoEnvio_401_ultimo (r : Resultado) :
    intentoEnvio (.status 401) r false =
      .fin { r with status_code := some 401, message := "Error de autenticación persistente: HTTP 401" } := by
  simp [intentoEnvio]

theorem intentoEnvio_status_no401 (code : Nat) (r : Resultado) (b : Bool)
    (h401 : code ≠ 401) :
    ∃ rr, intentoEnvio (.status code) r b = .fin rr
      ∧ rr.status_code = some code
      ∧ rr.success = (r.success || (code = 200 || code = 201 || code = 202)) := by
  simp only [intentoEnvio]
  split_ifs <;> exact ⟨_, rfl, rfl, by simp_all⟩

theorem obtener_token_oauth2_exito (force : Bool) (now : ℚ) (tok : Nat → TokenOutcome)
    (ctx : TokenCtx) (htok : ∀ n, tokenExitoso (tok n) = true) :
    ∃ s ctx2 c, obtener_token_oauth2 force true now tok ctx = (.ok s, ctx2, c) := by
  by_cases hv : (!force && ctx.cache.is_valid now) = true
  · refine ⟨ctx.cache.access_token.getD "", ctx, 0, ?_⟩
    simp [obtener_token_oauth2, hv]
  · rw [Bool.not_eq_true] at hv
    cases htk : tok ctx.tokenIdx with
    | fallo => exact absurd (htok ctx.tokenIdx) (by simp [tokenExitoso, htk])
    | exito a ei tt =>
        have ha : ¬(a = "") := by
          have h := htok ctx.tokenIdx
          rw [htk] at h
          simpa [tokenExitoso] using h
        refine ⟨a, ⟨⟨some a, now + ei.getD 3600, tt.getD "Bearer"⟩, ctx.tokenIdx + 1⟩, 1, ?_⟩
        simp [obtener_token_oauth2, hv, htk, ha]

/-- C3: for every non-empty batch and every sequence of endpoint
responses, with a token endpoint that always yields a usable token, the
delivery makes at most two endpoint requests; the second request — and
the single cache invalidation and single forced re-acquisition — happen
exactly when the first response is HTTP 401; after 401 a 2xx retry ends
with `success = true`; a second 401 ends with `success = false` and
status 401 (no third attempt); a non-401 first response is terminal, its
success given by the 200/201/202 class. -/
theorem C3_reintento_unico_en_401 (d : AvisoJson) (cache0 : TokenCache) (now : ℚ)
    (tok : Nat → TokenOutcome) (resp : Nat → HttpOutcome)
    (hav : d.avisos_generados.getD [] ≠ [])
    (htok : ∀ n, tokenExitoso (tok n) = true) :
    (enviar_aviso_a_isuite (.dic d) true cache0 now tok resp).2.1.llamadasIflow ≤ 2
    ∧ ((enviar_aviso_a_isuite (.dic d) true cache0 now tok resp).2.1.llamadasIflow = 2
        ↔ resp 0 = .status 401)
    ∧ ((enviar_aviso_a_isuite (.dic d) true cache0 now tok resp).2.1.invalidaciones = 1
        ↔ resp 0 = .status 401)
    ∧ ((enviar_aviso_a_isuite (.dic d) true cache0 now tok resp).2.1.refrescosForzados = 1
        ↔ resp 0 = .status 401)
    ∧ (resp 0 = .status 401 →
        (resp 1 = .status 200 ∨ resp 1 = .status 201 ∨ resp 1 = .status 202) →
        (enviar_aviso_a_isuite (.dic d) true cache0 now tok resp).1.success = true)
    ∧ (resp 0 = .status 401 → resp 1 = .status 401 →
        (enviar_aviso_a_isuite (.dic d) true cache0 now tok resp).1.success = false
        ∧ (enviar_aviso_a_isuite (.dic d) true cache0 now tok resp).1.status_code = some 401)
    ∧ (∀ c0, resp 0 = .status c0 → c0 ≠ 401 →
        ((enviar_aviso_a_isuite (.dic d) true cache0 now tok resp).1.success = true
          ↔ (c0 = 200 ∨ c0 = 201 ∨ c0 = 202)))
    ∧ ((resp 0 = .timeout ∨ resp 0 = .connError) →
        (enviar_aviso_a_isuite (.dic d) true cache0 now tok resp).1.success = false) := by
  obtain ⟨l, hl⟩ : ∃ l, d.avisos_generados = some l := by
    cases h : d.avisos_generados with
    | none => rw [h] at hav; simp at hav
    | some l => exact ⟨l, rfl⟩
  have hfal : (EntradaAviso.dic d).esFalsy = false := by
    simp [EntradaAviso.esFalsy, hl]
  have hemp : (d.avisos_generados.getD []).isEmpty = false := by
    cases hgl : d.avisos_generados.getD [] with
    | nil => exact absurd hgl hav
    | cons a t => rfl
  obtain ⟨s1, ctx1, c1, hobt1⟩ :=
    obtener_token_oauth2_exito false now tok ⟨cache0, 0⟩ htok
  cases hr0 : resp 0 with
  | timeout =>
      have henv : enviar_aviso_a_isuite (.dic d) true cache0 now tok resp
          = ({ success := false, status_code := none, message := "Timeout al llamar al iFlow (>30s)" },
             { llamadasToken := c1, llamadasIflow := 1 }, ctx1.cache) := by
        simp [enviar_aviso_a_isuite, hfal, hemp, hobt1, hr0, intentoEnvio]
      rw [henv]
      simp
  | connError =>
      have henv : enviar_aviso_a_isuite (.dic d) true cache0 now tok resp
          = ({ success := false, status_code := none, message := "Error de conexión al iFlow" },
             { llamadasToken := c1, llamadasIflow := 1 }, ctx1.cache) := by
        simp [enviar_aviso_a_isuite, hfal, hemp, hobt1, hr0, intentoEnvio]
      rw [henv]
      simp
  | status code =>
      by_cases h401 : code = 401
      · subst h401
        obtain ⟨s2, ctx2, c2, hobt2⟩ :=
          obtener_token_oauth2_exito true now tok ⟨ctx1.cache.clear, ctx1.tokenIdx⟩ htok
        cases hr1 : resp 1 with
        | timeout =>
            have henv : enviar_aviso_a_isuite (.dic d) true cache0 now tok resp
                = ({ success := false, status_code := some 401, message := "Timeout al llamar al iFlow (>30s)" },
                   { llamadasToken := c1 + c2, llamadasIflow := 2, invalidaciones := 1, refrescosForzados := 1 },
                   ctx2.cache) := by
              simp [enviar_aviso_a_isuite, hfal, hemp, hobt1, hr0, hobt2, hr1,
                intentoEnvio_401_primero, intentoEnvio]
            rw [henv]
            simp
        | connError =>
            have henv : enviar_aviso_a_isuite (.dic d) true cache0 now tok resp
                = ({ success := false, status_code := some 401, message := "Error de conexión al iFlow" },
                   { llamadasToken := c1 + c2, llamadasIflow := 2, invalidaciones := 1, refrescosForzados := 1 },
                   ctx2.cache) := by
              simp [enviar_aviso_a_isuite, hfal, hemp, hobt1, hr0, hobt2, hr1,
                intentoEnvio_401_primero, intentoEnvio]
            rw [henv]
            simp
        | status code2 =>
            by_cases h401b : code2 = 401
            · subst h401b
              have henv : enviar_aviso_a_isuite (.dic d) true cache0 now tok resp
                  = ({ success := false, status_code := some 401, message := "Error de autenticación persistente: HTTP 401" },
                     { llamadasToken := c1 + c2, llamadasIflow := 2, invalidaciones := 1, refrescosForzados := 1 },
                     ctx2.cache) := by
                simp [enviar_aviso_a_isuite, hfal, hemp, hobt1, hr0, hobt2, hr1,
                  intentoEnvio_401_primero, intentoEnvio_401_ultimo]
              rw [henv]
              simp
            · obtain ⟨rr, hrr, hst, hsucc⟩ :=
                intentoEnvio_status_no401 code2 { status_code := some 401 } false h401b
              have henv : enviar_aviso_a_isuite (.dic d) true cache0 now tok resp
                  = (rr, { llamadasToken := c1 + c2, llamadasIflow := 2, invalidaciones := 1, refrescosForzados := 1 },
                     ctx2.cache) := by
                simp [enviar_aviso_a_isuite, hfal, hemp, hobt1, hr0, hobt2, hr1,
                  intentoEnvio_401_primero, hrr]
              rw [henv]
              refine ⟨by norm_num, by simp, by simp, by simp, ?_, ?_, ?_, by simp⟩
              · intro _ h2xx
                rcases h2xx with h | h | h <;>
                  · injection h with h
                    subst h
                    rw [hsucc]
                    simp
              · intro _ hc
                injection hc with hc
                exact absurd hc h401b
              · intro c0 hc0 hc0ne
                injection hc0 with hc0
                subst hc0
                exact absurd rfl hc0ne
      · obtain ⟨rr, hrr, hst, hsucc⟩ :=
          intentoEnvio_status_no401 code {} true h401
        have henv : enviar_aviso_a_isuite (.dic d) true cache0 now tok resp
            = (rr, { llamadasToken := c1, llamadasIflow := 1 }, ctx1.cache) := by
          simp [enviar_aviso_a_isuite, hfal, hemp, hobt1, hr0, hrr]
        rw [henv]
        refine ⟨by norm_num, by simp [h401], by simp [h401], by simp [h401], ?_, ?_, ?_, by simp⟩
        · intro h
          injection h with h
          exact absurd h h401
        · intro h
          injection h with h
          exact absurd h h401
        · intro c0 hc0 _
          injection hc0 with hc0
          subst hc0
          rw [hsucc]
          simp
          tauto

/-- A one-alert batch for exercising the delivery loop. -/
def dEjemplo : AvisoJson :=
  { avisos_generados := some [⟨AVISO_0_CONFIG, "AVISO_0", 0, "2026-01-01"⟩] }

/-- A token endpoint that always answers 200 with a fresh usable token. -/
def tokSiempreOk : Nat → TokenOutcome :=
  fun _ => .exito "token-nuevo" (some 3600) none

/-- An endpoint that answers 401 to the first request and 200 to the
retry. -/
def resp401Luego200 : Nat → HttpOutcome :=
  fun n => if n = 0 then .status 401 else .status 200

/-- Witness for the C3 theorem: on a 401-then-200 run with a one-alert
batch, exactly two endpoint requests, one invalidation, one forced
re-acquisition, and a final success. -/
theorem C3_reintento_unico_en_401_witness :
    (enviar_aviso_a_isuite (.dic dEjemplo) true {} 0 tokSiempreOk resp401Luego200).2.1.llamadasIflow = 2
    ∧ (enviar_aviso_a_isuite (.dic dEjemplo) true {} 0 tokSiempreOk resp401Luego200).2.1.invalidaciones = 1
    ∧ (enviar_aviso_a_isuite (.dic dEjemplo) true {} 0 tokSiempreOk resp401Luego200).2.1.refrescosForzados = 1
    ∧ (enviar_aviso_a_isuite (.dic dEjemplo) true {} 0 tokSiempreOk resp401Luego200).1.success = true := by
  have h := C3_reintento_unico_en_401 dEjemplo {} 0 tokSiempreOk resp401Luego200
    (by simp [dEjemplo]) (fun n => rfl)
  exact ⟨h.2.1.mpr rfl, h.2.2.1.mpr rfl, h.2.2.2.1.mpr rfl,
    h.2.2.2.2.1 rfl (Or.inl rfl)⟩

/-- C7: after a token acquisition at instant `now` whose 200 response
carries a non-empty token and either declares `expires_in = 3600` or
omits it (defaulting to 3600), the cached expiry is `now + 3600`; the
cache reports the token valid immediately and invalid at every instant
from `now + (3600 − 60)` on (inside the 60-second safety margin). -/
theorem C7_token_valido_y_margen (ctx : TokenCtx) (now : ℚ) (tok : Nat → TokenOutcome)
    (s : String) (ei : Option ℚ) (tt : Option String)
    (htok : tok ctx.tokenIdx = .exito s ei tt) (hs : s ≠ "")
    (hei : ei = some 3600 ∨ ei = none) :
    ((obtener_token_oauth2 true true now tok ctx).2.1.cache).expires_at = now + 3600
    ∧ ((obtener_token_oauth2 true true now tok ctx).2.1.cache).is_valid now = true
    ∧ ∀ t : ℚ, now + (3600 - 60) ≤ t →
        ((obtener_token_oauth2 true true now tok ctx).2.1.cache).is_valid t = false := by
  have hcache : (obtener_token_oauth2 true true now tok ctx).2.1.cache =
      { access_token := some s, expires_at := now + 3600, token_type := tt.getD "Bearer" } := by
    rcases hei with rfl | rfl <;>
      simp [obtener_token_oauth2, htok, hs]
  rw [hcache]
  refine ⟨rfl, ?_, ?_⟩
  · simp [TokenCache.is_valid, hs, TOKEN_EXPIRY_MARGIN]
    linarith
  · intro t htx
    simp [TokenCache.is_valid, hs, TOKEN_EXPIRY_MARGIN]
    linarith

/-- Witness for the C7 theorem: acquisition at instant 0 with
`expires_in = 3600`; valid at 0, invalid at 3540 (= 3600 − 60). -/
theorem C7_token_valido_y_margen_witness :
    ((obtener_token_oauth2 true true 0 tokSiempreOk ⟨{}, 0⟩).2.1.cache).is_valid 0 = true
    ∧ ((obtener_token_oauth2 true true 0 tokSiempreOk ⟨{}, 0⟩).2.1.cache).is_valid 3540 = false := by
  have h := C7_token_valido_y_margen ⟨{}, 0⟩ 0 tokSiempreOk "token-nuevo" (some 3600) none
    rfl (by decide) (Or.inl rfl)
  exact ⟨h.2.1, h.2.2 3540 (by norm_num)⟩

/-- C8: delivering a batch whose generated-alert list is empty performs
no network call (neither token acquisition nor endpoint request) and
reports `success = true` (with status 200). -/
theorem C8_lote_vacio_sin_red (d : AvisoJson) (config_ok : Bool) (cache0 : TokenCache)
    (now : ℚ) (tok : Nat → TokenOutcome) (resp : Nat → HttpOutcome)
    (h : d.avisos_generados = some []) :
    (enviar_aviso_a_isuite (.dic d) config_ok cache0 now tok resp).1.success = true
    ∧ (enviar_aviso_a_isuite (.dic d) config_ok cache0 now tok resp).1.status_code = some 200
    ∧ (enviar_aviso_a_isuite (.dic d) config_ok cache0 now tok resp).2.1.llamadasToken = 0
    ∧ (enviar_aviso_a_isuite (.dic d) config_ok cache0 now tok resp).2.1.llamadasIflow = 0 := by
  simp [enviar_aviso_a_isuite, EntradaAviso.esFalsy, h]

/-- Witness for the C8 theorem: a batch with `avisos_generados = []`. -/
theorem C8_lote_vacio_sin_red_witness :
    (enviar_aviso_a_isuite (.dic { avisos_generados := some [] }) true {} 0
      tokSiempreOk resp401Luego200).1.success = true
    ∧ (enviar_aviso_a_isuite (.dic { avisos_generados := some [] }) true {} 0
        tokSiempreOk resp401Luego200).2.1.llamadasIflow = 0 := by
  have h := C8_lote_vacio_sin_red { avisos_generados := some [] } true {} 0
    tokSiempreOk resp401Luego200 rfl
  exact ⟨h.1, h.2.2.2⟩

/-- C10: a `None`, falsy, truthy-non-dict or empty-dict argument yields
`success = false` with `status_code = None` and no network call, while a
well-formed dict whose alert list is empty yields `success = true` with
status 200 (and likewise no network call). -/
theorem C10_entrada_invalida_vs_lote_vacio (config_ok : Bool) (cache0 : TokenCache)
    (now : ℚ) (tok : Nat → TokenOutcome) (resp : Nat → HttpOutcome) (truthy : Bool)
    (d2 : AvisoJson) (hd2 : d2.avisos_generados = some []) :
    (enviar_aviso_a_isuite .nula config_ok cache0 now tok resp).1.success = false
    ∧ (enviar_aviso_a_isuite .nula config_ok cache0 now tok resp).1.status_code = none
    ∧ (enviar_aviso_a_isuite .nula config_ok cache0 now tok resp).2.1.llamadasIflow = 0
    ∧ (enviar_aviso_a_isuite (.otro truthy) config_ok cache0 now tok resp).1.success = false
    ∧ (enviar_aviso_a_isuite (.otro truthy) config_ok cache0 now tok resp).1.status_code = none
    ∧ (enviar_aviso_a_isuite (.otro truthy) config_ok cache0 now tok resp).2.1.llamadasIflow = 0
    ∧ (enviar_aviso_a_isuite (.dic {}) config_ok cache0 now tok resp).1.success = false
    ∧ (enviar_aviso_a_isuite (.dic {}) config_ok cache0 now tok resp).1.status_code = none
    ∧ (enviar_aviso_a_isuite (.dic {}) config_ok cache0 now tok resp).2.1.llamadasIflow = 0
    ∧ (enviar_aviso_a_isuite (.dic d2) config_ok cache0 now tok resp).1.success = true
    ∧ (enviar_aviso_a_isuite (.dic d2) config_ok cache0 now tok resp).1.status_code = some 200
    ∧ (enviar_aviso_a_isuite (.dic d2) config_ok cache0 now tok resp).2.1.llamadasIflow = 0 := by
  cases truthy <;> simp [enviar_aviso_a_isuite, EntradaAviso.esFalsy, hd2]

/-- Witness for the C10 theorem with the empty batch `{avisos: []}`. -/
theorem C10_entrada_invalida_vs_lote_vacio_witness :
    (enviar_aviso_a_isuite .nula true {} 0 tokSiempreOk resp401Luego200).1.success = false
    ∧ (enviar_aviso_a_isuite (.dic { avisos_generados := some [] }) true {} 0
        tokSiempreOk resp401Luego200).1.success = true := by
  have h := C10_entrada_invalida_vs_lote_vacio true {} 0 tokSiempreOk resp401Luego200
    false { avisos_generados := some [] } rfl
  exact ⟨h.1, h.2.2.2.2.2.2.2.2.2.1⟩
